import Mathlib

/-!
Shallow embedding of `src/server.c` (a minimal concurrent TCP server:
one acceptor thread, a fixed pool of worker threads each running an
epoll event loop, a connection handler that replies with a canned
HTTP response).  Definitions follow the C source; theorems settle the
specification claims about it.
-/

namespace CHttp

/-! ## Compile-time constants (server.c lines 17-21) -/

def PORT : Nat := 8080

def MAX_EVENTS : Nat := 64

def MAX_WORKERS : Nat := 32

def BUFFER_SIZE : Nat := 4096

def MAX_CONNECTIONS : Nat := 1000

/-! ## Connection handler (server.c `handle_connection`, lines 88-115)

The handler performs one `read(client_fd, buffer, sizeof(buffer) - 1)`.
We model the outcome of that read as delivered by the environment:
either `ok data` (the bytes placed in the buffer, `bytes_read = data.length`,
with `data = []` for the `bytes_read == 0` peer-closed case) or `err`
(read returned -1; the flag records whether errno was EAGAIN/EWOULDBLOCK). -/

inductive ReadResult where
  | ok (data : List Nat) : ReadResult
  | err (eagainOrWouldblock : Bool) : ReadResult
  deriving DecidableEq, Repr

/-- `read` is asked for at most `sizeof(buffer) - 1` bytes (line 90), so the
bytes placed in the buffer are a prefix of what the peer sent. -/
def read_into_buffer (avail : List Nat) : List Nat :=
  avail.take (BUFFER_SIZE - 1)

/-- The response format string of lines 97-101 with `%d` instantiated to the
worker id, exactly as `snprintf` renders it before any truncation. -/
def rendered_response (worker_id : Nat) : String :=
  "HTTP/1.1 200 OK\r\n" ++
  "Content-Type: text/plain\r\n" ++
  "Connection: close\r\n" ++
  "\r\n" ++
  "Hello from worker " ++ toString worker_id ++ "!\n"

/-- `snprintf(buf, size, ...)` stores at most `size - 1` characters plus the
terminating null: the stored string is the rendering truncated to `size - 1`. -/
def snprintf_bounded (size : Nat) (s : String) : String :=
  String.mk (s.data.take (size - 1))

/-- The contents of `formatted_response` (a 512-byte buffer, lines 103-104)
after the `snprintf` call. -/
def formatted_response (worker_id : Nat) : String :=
  snprintf_bounded 512 (rendered_response worker_id)

/-- Observable effects of one `handle_connection` call: the bytes written to
the client socket (if any), whether the handler itself closed the socket,
the request bytes echoed to stdout, and whether a read error was logged. -/
structure HandlerEffect where
  written : Option String
  closedByHandler : Bool
  loggedData : Option (List Nat)
  loggedReadError : Bool
  deriving DecidableEq, Repr

/-- `handle_connection` (lines 88-115).  `bytes_read > 0`: log the buffer,
format the canned response, write it, close the socket.  `bytes_read == 0`:
log only.  `bytes_read < 0`: log unless errno is EAGAIN/EWOULDBLOCK. -/
def handle_connection (r : ReadResult) (worker_id : Nat) : HandlerEffect :=
  match r with
  | ReadResult.ok data =>
      if 0 < data.length then
        { written := some (formatted_response worker_id)
          closedByHandler := true
          loggedData := some data
          loggedReadError := false }
      else
        { written := none
          closedByHandler := false
          loggedData := none
          loggedReadError := false }
  | ReadResult.err eagainOrWouldblock =>
      { written := none
        closedByHandler := false
        loggedData := none
        loggedReadError := !eagainOrWouldblock }

/-! ## Worker event loop (server.c `worker_thread`, lines 58-86)

One loop iteration: check `running`; `epoll_wait`; on error retry iff
`errno == EINTR`, otherwise `break` out of this worker's loop; on success
dispatch each reported event (readable events to the handler, error/hangup
events to deregister-and-close). -/

structure EpollEvent where
  fd : Nat
  epollin : Bool
  errOrHup : Bool
  readRes : ReadResult
  deriving DecidableEq, Repr

inductive WaitResult where
  | ready (evs : List EpollEvent) : WaitResult
  | waitErr (isEINTR : Bool) : WaitResult
  deriving DecidableEq, Repr

/-- Observable effects of one iteration of a worker's `while (running)` loop:
whether the loop goes on to the next iteration, the handler invocations made,
the fds the loop itself deregistered and closed, whether the process was
exited, and the value of the shared `running` flag afterwards. -/
structure WorkerIterEffect where
  continues : Bool
  handled : List (Nat × HandlerEffect)
  closedByLoop : List Nat
  processExited : Bool
  runningAfter : Bool
  deriving DecidableEq, Repr

/-- One iteration of `worker_thread`'s loop (lines 64-83).  The worker never
writes the `running` flag and never exits the process. -/
def worker_iteration (workerId : Nat) (running : Bool) (w : WaitResult) :
    WorkerIterEffect :=
  if running then
    match w with
    | WaitResult.ready evs =>
        { continues := true
          handled := (evs.filter (fun e => e.epollin)).map
            (fun e => (e.fd, handle_connection e.readRes workerId))
          closedByLoop := (evs.filter (fun e => e.errOrHup)).map (fun e => e.fd)
          processExited := false
          runningAfter := running }
    | WaitResult.waitErr isEINTR =>
        { continues := isEINTR
          handled := []
          closedByLoop := []
          processExited := false
          runningAfter := running }
  else
    { continues := false
      handled := []
      closedByLoop := []
      processExited := false
      runningAfter := running }

/-! ## Acceptor loop (server.c `main`, lines 188-223)

State of the accept loop: the round-robin cursor `current_worker`, the
assignments made so far (connection id, worker id), the client sockets
the acceptor closed, and whether the loop is still running (`break` on a
fatal accept error).  Each loop iteration consumes one outcome of
`accept`: either an error (transient = EINTR/EAGAIN/EWOULDBLOCK) or an
accepted connection together with whether `make_socket_non_blocking` and
`epoll_ctl(EPOLL_CTL_ADD)` succeed for it. -/

inductive AcceptEvent where
  | acceptErr (transient : Bool) : AcceptEvent
  | conn (connId : Nat) (nonblockOk : Bool) (registerOk : Bool) : AcceptEvent
  deriving DecidableEq, Repr

structure AcceptorState where
  cursor : Nat
  assigned : List (Nat × Nat)
  closed : List Nat
  looping : Bool
  deriving DecidableEq, Repr

def acceptor_init : AcceptorState :=
  { cursor := 0, assigned := [], closed := [], looping := true }

/-- One iteration of the accept loop (lines 189-223).  The cursor advances
(line 222) only after a successful `epoll_ctl` registration; failed
non-blocking setup or failed registration close the client socket and
`continue` without touching the cursor. -/
def acceptor_step (numWorkers : Nat) (s : AcceptorState) (e : AcceptEvent) :
    AcceptorState :=
  if s.looping then
    match e with
    | AcceptEvent.acceptErr transient =>
        if transient then s else { s with looping := false }
    | AcceptEvent.conn cid nonblockOk registerOk =>
        if nonblockOk then
          if registerOk then
            { s with assigned := s.assigned ++ [(cid, s.cursor)]
                     cursor := (s.cursor + 1) % numWorkers }
          else
            { s with closed := s.closed ++ [cid] }
        else
          { s with closed := s.closed ++ [cid] }
  else s

def acceptor_run (numWorkers : Nat) (s : AcceptorState)
    (evs : List AcceptEvent) : AcceptorState :=
  evs.foldl (acceptor_step numWorkers) s

/-- The worker ids assigned so far, in assignment order. -/
def assignedWorkers (s : AcceptorState) : List Nat :=
  s.assigned.map Prod.snd

/-- The connection ids assigned so far. -/
def assignedConns (s : AcceptorState) : List Nat :=
  s.assigned.map Prod.fst

/-! ## Worker pool sizing (server.c `main`, lines 159-162)

`num_workers = sysconf(_SC_NPROCESSORS_ONLN); if (num_workers <= 0 ||
num_workers > MAX_WORKERS) num_workers = 4;`.  `sysconf` returns -1 on
detection failure, so the argument is an `Int`. -/

def compute_num_workers (detected : Int) : Int :=
  if detected ≤ 0 ∨ detected > (MAX_WORKERS : Int) then 4 else detected

/-! ## Lifecycle: the `running` flag and the listening socket
(server.c lines 32, 39-43)

`static volatile bool running = true;` and `signal_handler` which sets
`running = false` and closes `server_fd`.  We model the process-visible
lifecycle state and step it by system events: a delivered termination
signal runs the handler; worker-loop and accept-loop iterations read the
flag but never write it (no other code mutates `running` or reopens the
listening socket). -/

structure LifecycleState where
  running : Bool
  serverFdOpen : Bool
  deriving DecidableEq, Repr

/-- Process state right after startup: `running` initialised `true` (line 32),
listening socket open. -/
def lifecycle_init : LifecycleState :=
  { running := true, serverFdOpen := true }

inductive SysEvent where
  | signal (signum : Nat) : SysEvent
  | workerIter (workerId : Nat) (w : WaitResult) : SysEvent
  | acceptIter (e : AcceptEvent) : SysEvent
  deriving DecidableEq, Repr

def SysEvent.isSignal : SysEvent → Bool
  | SysEvent.signal _ => true
  | _ => false

/-- Effect of one system event on the lifecycle state: `signal_handler`
(lines 39-43) sets `running = false` and closes the listening socket;
no other event writes either field. -/
def lifecycle_step (s : LifecycleState) : SysEvent → LifecycleState
  | SysEvent.signal _ => { running := false, serverFdOpen := false }
  | SysEvent.workerIter _ _ => s
  | SysEvent.acceptIter _ => s

def lifecycle_run (s : LifecycleState) (evs : List SysEvent) : LifecycleState :=
  evs.foldl lifecycle_step s

/-! ## Helper lemmas -/

/-- For every worker id the pool can produce (`worker_id < MAX_WORKERS`), the
rendered response fits in the 512-byte `formatted_response` buffer. -/
lemma rendered_response_length_le (worker_id : Nat) (h : worker_id < 32) :
    (rendered_response worker_id).length ≤ 511 := by
  interval_cases worker_id <;> decide

/-- `snprintf` does not truncate the response for any pool-producible worker
id: the stored string is the full rendering. -/
lemma formatted_response_eq_rendered (worker_id : Nat) (h : worker_id < 32) :
    formatted_response worker_id = rendered_response worker_id := by
  interval_cases worker_id <;> decide

/-! ## Claims -/

/-- C1: for every connection whose handler read returns more than zero bytes,
the handler writes exactly the fixed response: status line `HTTP/1.1 200 OK`,
headers `Content-Type: text/plain` and `Connection: close`, a blank line, and
the newline-terminated body `Hello from worker <id>!` with `<id>` the serving
worker's identifier — and then closes the connection's socket. -/
theorem c1_nonempty_read_fixed_response_then_close
    (data : List Nat) (worker_id : Nat)
    (hdata : 0 < data.length) (hw : worker_id < MAX_WORKERS) :
    (handle_connection (ReadResult.ok data) worker_id).written =
      some ("HTTP/1.1 200 OK\r\n" ++
            "Content-Type: text/plain\r\n" ++
            "Connection: close\r\n" ++
            "\r\n" ++
            "Hello from worker " ++ toString worker_id ++ "!\n") ∧
    (handle_connection (ReadResult.ok data) worker_id).closedByHandler = true := by
  have hw32 : worker_id < 32 := hw
  simp [handle_connection, hdata, formatted_response_eq_rendered worker_id hw32,
    rendered_response]

/-- Witness for C1 at a concrete non-empty read and worker id 3. -/
theorem c1_nonempty_read_fixed_response_then_close_witness :
    (handle_connection (ReadResult.ok [71, 69, 84]) 3).written =
      some ("HTTP/1.1 200 OK\r\n" ++
            "Content-Type: text/plain\r\n" ++
            "Connection: close\r\n" ++
            "\r\n" ++
            "Hello from worker " ++ toString 3 ++ "!\n") ∧
    (handle_connection (ReadResult.ok [71, 69, 84]) 3).closedByHandler = true :=
  c1_nonempty_read_fixed_response_then_close [71, 69, 84] 3 (by decide) (by decide)

/-- C7: a read returning exactly zero bytes (peer closed before sending data)
produces no response and no close by the handler; a socket reported with an
error/hangup event is instead deregistered and closed by the worker event
loop itself. -/
theorem c7_zero_read_leaves_socket_to_event_loop
    (worker_id : Nat) (evs : List EpollEvent) (ev : EpollEvent)
    (hmem : ev ∈ evs) (hhup : ev.errOrHup = true) :
    (handle_connection (ReadResult.ok []) worker_id).written = none ∧
    (handle_connection (ReadResult.ok []) worker_id).closedByHandler = false ∧
    ev.fd ∈ (worker_iteration worker_id true (WaitResult.ready evs)).closedByLoop := by
  refine ⟨rfl, rfl, ?_⟩
  simp only [worker_iteration, if_pos trivial]
  exact List.mem_map_of_mem _ (List.mem_filter.mpr ⟨hmem, by simp [hhup]⟩)

/-- Witness for C7: a concrete hangup event in a batch. -/
theorem c7_zero_read_leaves_socket_to_event_loop_witness :
    (handle_connection (ReadResult.ok []) 0).written = none ∧
    (handle_connection (ReadResult.ok []) 0).closedByHandler = false ∧
    (7 : Nat) ∈ (worker_iteration 0 true (WaitResult.ready
      [{ fd := 7, epollin := false, errOrHup := true,
         readRes := ReadResult.ok [] }])).closedByLoop :=
  c7_zero_read_leaves_socket_to_event_loop 0
    [{ fd := 7, epollin := false, errOrHup := true, readRes := ReadResult.ok [] }]
    { fd := 7, epollin := false, errOrHup := true, readRes := ReadResult.ok [] }
    (by decide) (by decide)

/-- C8: two non-empty reads handled by the same worker produce identical
response bytes and identical close behaviour, regardless of the request
bytes (method, path and headers do not influence the response). -/
theorem c8_response_independent_of_request_bytes
    (worker_id : Nat) (d1 d2 : List Nat)
    (h1 : 0 < d1.length) (h2 : 0 < d2.length) :
    (handle_connection (ReadResult.ok d1) worker_id).written =
      (handle_connection (ReadResult.ok d2) worker_id).written ∧
    (handle_connection (ReadResult.ok d1) worker_id).closedByHandler =
      (handle_connection (ReadResult.ok d2) worker_id).closedByHandler := by
  simp [handle_connection, h1, h2]

/-- Witness for C8 at two different concrete request byte sequences. -/
theorem c8_response_independent_of_request_bytes_witness :
    (handle_connection (ReadResult.ok [71, 69, 84]) 1).written =
      (handle_connection (ReadResult.ok [80, 79, 83, 84, 32]) 1).written ∧
    (handle_connection (ReadResult.ok [71, 69, 84]) 1).closedByHandler =
      (handle_connection (ReadResult.ok [80, 79, 83, 84, 32]) 1).closedByHandler :=
  c8_response_independent_of_request_bytes 1 [71, 69, 84] [80, 79, 83, 84, 32]
    (by decide) (by decide)

/-- C10: the handler's buffer accesses are in bounds: the read asks for at
most `BUFFER_SIZE - 1` bytes, so the null terminator written at index
`bytes_read` is within the `BUFFER_SIZE`-byte buffer for every possible read
length; and for every pool-producible worker id the formatted response fits
the 512-byte buffer without truncation, so the write length (`strlen`) is
the full rendered response's length. -/
theorem c10_buffer_accesses_in_bounds (avail : List Nat) (worker_id : Nat)
    (hw : worker_id < MAX_WORKERS) :
    (read_into_buffer avail).length ≤ BUFFER_SIZE - 1 ∧
    (read_into_buffer avail).length < BUFFER_SIZE ∧
    (rendered_response worker_id).length < 512 ∧
    formatted_response worker_id = rendered_response worker_id := by
  have hw32 : worker_id < 32 := hw
  have htake : (read_into_buffer avail).length ≤ BUFFER_SIZE - 1 :=
    List.length_take_le (BUFFER_SIZE - 1) avail
  have hlen := rendered_response_length_le worker_id hw32
  refine ⟨htake, ?_, ?_, formatted_response_eq_rendered worker_id hw32⟩
  · simp only [BUFFER_SIZE] at htake ⊢
    omega
  · omega

/-- Witness for C10 at a concrete over-long available byte sequence. -/
theorem c10_buffer_accesses_in_bounds_witness :
    (read_into_buffer (List.replicate 5000 65)).length ≤ BUFFER_SIZE - 1 ∧
    (read_into_buffer (List.replicate 5000 65)).length < BUFFER_SIZE ∧
    (rendered_response 31).length < 512 ∧
    formatted_response 31 = rendered_response 31 :=
  c10_buffer_accesses_in_bounds (List.replicate 5000 65) 31 (by decide)

/-- C5: in the worker event loop, an `EINTR` wait error retries the wait
(the loop continues), while any other wait error terminates only that
worker's loop: the process is not exited, the shared `running` flag is
untouched, and any other worker's next iteration behaves exactly as before. -/
theorem c5_wait_error_isolation (workerId : Nat) :
    (worker_iteration workerId true (WaitResult.waitErr true)).continues = true ∧
    (worker_iteration workerId true (WaitResult.waitErr false)).continues = false ∧
    (∀ isEINTR : Bool,
      (worker_iteration workerId true (WaitResult.waitErr isEINTR)).processExited
          = false ∧
      (worker_iteration workerId true (WaitResult.waitErr isEINTR)).runningAfter
          = true) ∧
    (∀ (otherId : Nat) (w : WaitResult),
      worker_iteration otherId
        (worker_iteration workerId true (WaitResult.waitErr false)).runningAfter w
        = worker_iteration otherId true w) := by
  refine ⟨rfl, rfl, fun isEINTR => ⟨?_, ?_⟩, fun otherId w => rfl⟩ <;>
    cases isEINTR <;> rfl

/-- C4 counterexample: with a detected processor count of 64 (detection
succeeded, count above `MAX_WORKERS`), the pool size is 4 — not the detected
count, and not the hard maximum either. -/
theorem c4_counterexample_detected_64 :
    compute_num_workers 64 = 4 ∧
    compute_num_workers 64 ≠ 64 ∧
    compute_num_workers 64 ≠ (MAX_WORKERS : Int) := by
  refine ⟨?_, ?_, ?_⟩ <;> decide

/-- C4 (amended): the pool size equals the detected processor count only when
that count is positive and at most `MAX_WORKERS`; when detection fails
(non-positive result) or the detected count exceeds `MAX_WORKERS`, the pool
falls back to the default 4; in all cases the size is positive and at most
`MAX_WORKERS`. -/
theorem c4_pool_size_amended (detected : Int) :
    (detected ≤ 0 → compute_num_workers detected = 4) ∧
    (0 < detected → detected ≤ (MAX_WORKERS : Int) →
      compute_num_workers detected = detected) ∧
    ((MAX_WORKERS : Int) < detected → compute_num_workers detected = 4) ∧
    0 < compute_num_workers detected ∧
    compute_num_workers detected ≤ (MAX_WORKERS : Int) := by
  simp only [compute_num_workers, MAX_WORKERS]
  split_ifs with h <;>
    refine ⟨fun h1 => ?_, fun h1 h2 => ?_, fun h1 => ?_, ?_, ?_⟩ <;> omega

/-- Witness for C4 (amended): failure, in-range and above-maximum inputs. -/
theorem c4_pool_size_amended_witness :
    compute_num_workers (-1) = 4 ∧
    compute_num_workers 8 = 8 ∧
    compute_num_workers 64 = 4 :=
  ⟨(c4_pool_size_amended (-1)).1 (by decide),
   (c4_pool_size_amended 8).2.1 (by decide) (by decide),
   (c4_pool_size_amended 64).2.2.1 (by decide)⟩

/-- One acceptor-loop iteration keeps the round-robin cursor inside
`[0, numWorkers)`. -/
lemma acceptor_step_cursor_lt (numWorkers : Nat) (hN : 0 < numWorkers)
    (s : AcceptorState) (hc : s.cursor < numWorkers) (e : AcceptEvent) :
    (acceptor_step numWorkers s e).cursor < numWorkers := by
  cases e with
  | acceptErr transient =>
      simp only [acceptor_step]
      split_ifs <;> exact hc
  | conn cid nonblockOk registerOk =>
      simp only [acceptor_step]
      split_ifs <;> first
        | exact hc
        | exact Nat.mod_lt _ hN

/-- Any run of the accept loop keeps the cursor inside `[0, numWorkers)`. -/
lemma acceptor_run_cursor_lt (numWorkers : Nat) (hN : 0 < numWorkers)
    (evs : List AcceptEvent) :
    ∀ s : AcceptorState, s.cursor < numWorkers →
      (acceptor_run numWorkers s evs).cursor < numWorkers := by
  induction evs with
  | nil => intro s hc; exact hc
  | cons e evs ih =>
      intro s hc
      exact ih _ (acceptor_step_cursor_lt numWorkers hN s hc e)

/-- A step on an event that is not a successful registration of `cid` cannot
newly assign `cid`. -/
lemma acceptor_step_not_assigned (numWorkers : Nat) (s : AcceptorState)
    (cid : Nat) (e : AcceptEvent) (h : cid ∉ assignedConns s)
    (hne : ∀ nb, e ≠ AcceptEvent.conn cid nb true) :
    cid ∉ assignedConns (acceptor_step numWorkers s e) := by
  cases e with
  | acceptErr transient =>
      simp only [acceptor_step]
      split_ifs <;> exact h
  | conn c nonblockOk registerOk =>
      simp only [acceptor_step]
      split_ifs with hl hnb hrg <;> try exact h
      subst hrg
      have hc : c ≠ cid := by
        intro hcc
        exact hne nonblockOk (by rw [hcc])
      simp only [assignedConns, List.map_append, List.mem_append] at h ⊢
      rintro (hmem | hmem)
      · exact h hmem
      · simp only [List.map_cons, List.map_nil, List.mem_singleton] at hmem
        exact hc hmem.symm

/-- Over a whole run containing no successful registration of `cid`, the
connection `cid` is never assigned to any worker. -/
lemma acceptor_run_not_assigned (numWorkers cid : Nat)
    (evs : List AcceptEvent) :
    ∀ s : AcceptorState, cid ∉ assignedConns s →
      (∀ nb, AcceptEvent.conn cid nb true ∉ evs) →
      cid ∉ assignedConns (acceptor_run numWorkers s evs) := by
  induction evs with
  | nil => intro s h _; exact h
  | cons e evs ih =>
      intro s h hne
      refine ih _ (acceptor_step_not_assigned numWorkers s cid e h ?_) ?_
      · intro nb hcontra
        exact hne nb (by rw [← hcontra]; exact List.mem_cons_self e evs)
      · intro nb hmem
        exact hne nb (List.mem_cons_of_mem e hmem)

/-- C2 counterexample: a connection that is accepted but whose registration
with the worker's multiplexer fails does not advance the round-robin cursor,
so the cursor does not advance by one for every accepted connection. -/
theorem c2_counterexample_failed_registration_no_advance :
    (acceptor_step 4 acceptor_init (AcceptEvent.conn 0 true false)).cursor = 0 ∧
    (0 + 1) % 4 = 1 ∧
    (acceptor_step 4 acceptor_init (AcceptEvent.conn 0 true false)).cursor ≠
      (0 + 1) % 4 := by
  refine ⟨?_, ?_, ?_⟩ <;> decide

/-- C2 (amended): the cursor is mutated only by the accept loop's step; it
advances by exactly one modulo `numWorkers` for every accepted connection that
is successfully made non-blocking and registered, stays unchanged for accepted
connections dropped during setup or registration and for accept errors, and
over any run starting in range it always remains in `[0, numWorkers)`. -/
theorem c2_cursor_round_robin_amended (numWorkers : Nat) (hN : 0 < numWorkers)
    (s : AcceptorState) (hc : s.cursor < numWorkers) :
    (∀ e, (acceptor_step numWorkers s e).cursor < numWorkers) ∧
    (∀ cid, s.looping = true →
      (acceptor_step numWorkers s (AcceptEvent.conn cid true true)).cursor =
        (s.cursor + 1) % numWorkers) ∧
    (∀ cid nonblockOk,
      (acceptor_step numWorkers s (AcceptEvent.conn cid nonblockOk false)).cursor
        = s.cursor) ∧
    (∀ cid registerOk,
      (acceptor_step numWorkers s (AcceptEvent.conn cid false registerOk)).cursor
        = s.cursor) ∧
    (∀ transient,
      (acceptor_step numWorkers s (AcceptEvent.acceptErr transient)).cursor
        = s.cursor) ∧
    (∀ evs, (acceptor_run numWorkers acceptor_init evs).cursor < numWorkers) := by
  refine ⟨fun e => acceptor_step_cursor_lt numWorkers hN s hc e,
    fun cid hl => ?_, fun cid nonblockOk => ?_, fun cid registerOk => ?_,
    fun transient => ?_,
    fun evs => acceptor_run_cursor_lt numWorkers hN evs acceptor_init hN⟩
  · simp [acceptor_step, hl]
  · simp only [acceptor_step]
    split_ifs <;> simp_all
  · simp only [acceptor_step]
    split_ifs <;> simp_all
  · simp only [acceptor_step]
    split_ifs <;> simp_all

/-- Witness for C2 (amended) at a concrete state and pool size 4. -/
theorem c2_cursor_round_robin_amended_witness :
    (acceptor_step 4 acceptor_init (AcceptEvent.conn 0 true true)).cursor =
      (0 + 1) % 4 ∧
    (acceptor_run 4 acceptor_init
      [AcceptEvent.conn 0 true true, AcceptEvent.conn 1 true true]).cursor < 4 :=
  ⟨(c2_cursor_round_robin_amended 4 (by decide) acceptor_init (by decide)).2.1
      0 (by decide),
   (c2_cursor_round_robin_amended 4 (by decide) acceptor_init (by decide)).2.2.2.2.2
      [AcceptEvent.conn 0 true true, AcceptEvent.conn 1 true true]⟩

/-- C6: when an accepted connection's registration with the assigned worker's
multiplexer fails, the acceptor closes that connection's socket, keeps
accepting (the loop does not stop and the cursor is untouched), and the
connection is never assigned to any worker later — no retry, no re-queue. -/
theorem c6_failed_registration_dropped (numWorkers cid : Nat)
    (s : AcceptorState) (hloop : s.looping = true)
    (evs : List AcceptEvent)
    (hfresh : ∀ nb, AcceptEvent.conn cid nb true ∉ evs)
    (hnew : cid ∉ assignedConns s) :
    (acceptor_step numWorkers s (AcceptEvent.conn cid true false)).closed =
      s.closed ++ [cid] ∧
    (acceptor_step numWorkers s (AcceptEvent.conn cid true false)).assigned =
      s.assigned ∧
    (acceptor_step numWorkers s (AcceptEvent.conn cid true false)).cursor =
      s.cursor ∧
    (acceptor_step numWorkers s (AcceptEvent.conn cid true false)).looping =
      true ∧
    cid ∉ assignedConns (acceptor_run numWorkers
      (acceptor_step numWorkers s (AcceptEvent.conn cid true false)) evs) := by
  have hstep : acceptor_step numWorkers s (AcceptEvent.conn cid true false) =
      { s with closed := s.closed ++ [cid] } := by
    simp [acceptor_step, hloop]
  refine ⟨by rw [hstep], by rw [hstep], by rw [hstep], by rw [hstep, hloop], ?_⟩
  refine acceptor_run_not_assigned numWorkers cid evs _ ?_ hfresh
  rw [hstep]
  simpa [assignedConns] using hnew

/-- Witness for C6: one dropped registration followed by an unrelated
successful connection. -/
theorem c6_failed_registration_dropped_witness :
    (acceptor_step 4 acceptor_init (AcceptEvent.conn 9 true false)).closed =
      acceptor_init.closed ++ [9] ∧
    (acceptor_step 4 acceptor_init (AcceptEvent.conn 9 true false)).assigned =
      acceptor_init.assigned ∧
    (acceptor_step 4 acceptor_init (AcceptEvent.conn 9 true false)).cursor =
      acceptor_init.cursor ∧
    (acceptor_step 4 acceptor_init (AcceptEvent.conn 9 true false)).looping =
      true ∧
    (9 : Nat) ∉ assignedConns (acceptor_run 4
      (acceptor_step 4 acceptor_init (AcceptEvent.conn 9 true false))
      [AcceptEvent.conn 10 true true]) :=
  c6_failed_registration_dropped 4 9 acceptor_init (by decide)
    [AcceptEvent.conn 10 true true] (by decide) (by decide)

/-- A stopped lifecycle never restarts: every event preserves
`running = false`. -/
lemma lifecycle_step_stays_stopped (s : LifecycleState) (e : SysEvent)
    (h : s.running = false) : (lifecycle_step s e).running = false := by
  cases e <;> simp [lifecycle_step, h]

/-- Over any event sequence, `running = false` is absorbing. -/
lemma lifecycle_run_stays_stopped (evs : List SysEvent) :
    ∀ s : LifecycleState, s.running = false →
      (lifecycle_run s evs).running = false := by
  induction evs with
  | nil => intro s h; exact h
  | cons e evs ih =>
      intro s h
      exact ih _ (lifecycle_step_stays_stopped s e h)

/-- C9: the running flag starts `true`; the signal handler is the only event
that writes it, setting it `false` and closing the listening socket; every
non-signal event leaves the lifecycle state unchanged; and once `false` the
flag never becomes `true` again over any sequence of events — so it is set
`false` at most the one time it transitions. -/
theorem c9_running_flag_single_shot :
    lifecycle_init.running = true ∧
    lifecycle_init.serverFdOpen = true ∧
    (∀ (s : LifecycleState) (signum : Nat),
      (lifecycle_step s (SysEvent.signal signum)).running = false ∧
      (lifecycle_step s (SysEvent.signal signum)).serverFdOpen = false) ∧
    (∀ (s : LifecycleState) (e : SysEvent), e.isSignal = false →
      lifecycle_step s e = s) ∧
    (∀ (s : LifecycleState) (evs : List SysEvent), s.running = false →
      (lifecycle_run s evs).running = false) := by
  refine ⟨rfl, rfl, fun s signum => ⟨rfl, rfl⟩, fun s e he => ?_,
    fun s evs h => lifecycle_run_stays_stopped evs s h⟩
  cases e with
  | signal signum => simp [SysEvent.isSignal] at he
  | workerIter workerId w => rfl
  | acceptIter e => rfl

/-- Witness for C9: a non-signal event changes nothing; after a signal the
flag stays `false` across further events. -/
theorem c9_running_flag_single_shot_witness :
    lifecycle_step lifecycle_init (SysEvent.acceptIter (AcceptEvent.acceptErr
      true)) = lifecycle_init ∧
    (lifecycle_run { running := false, serverFdOpen := false }
      [SysEvent.workerIter 0 (WaitResult.waitErr true),
       SysEvent.acceptIter (AcceptEvent.conn 0 true true)]).running = false :=
  ⟨c9_running_flag_single_shot.2.2.2.1 lifecycle_init
      (SysEvent.acceptIter (AcceptEvent.acceptErr true)) (by decide),
   c9_running_flag_single_shot.2.2.2.2 { running := false, serverFdOpen := false }
      [SysEvent.workerIter 0 (WaitResult.waitErr true),
       SysEvent.acceptIter (AcceptEvent.conn 0 true true)] (by decide)⟩

/-! ## Round-robin counting

`cnt c n w m` is the number of indices `i < m` with `(c + i) % n = w`: of
`m` consecutive successfully registered connections starting at cursor `c`,
how many the round-robin assigns to worker `w`. -/

def cnt (c n w : Nat) : Nat → Nat
  | 0 => 0
  | m + 1 => cnt c n w m + (if (c + m) % n = w then 1 else 0)

lemma cnt_add (c n w a : Nat) :
    ∀ b, cnt c n w (a + b) = cnt c n w a + cnt (c + a) n w b := by
  intro b
  induction b with
  | zero => simp [cnt]
  | succ b ih =>
      have h1 : a + (b + 1) = (a + b) + 1 := by omega
      rw [h1]
      simp only [cnt]
      rw [ih]
      have h2 : c + (a + b) = (c + a) + b := by omega
      rw [h2]
      ring

lemma cnt_mod_left (c n w : Nat) : ∀ m, cnt (c % n) n w m = cnt c n w m := by
  intro m
  induction m with
  | zero => rfl
  | succ m ih =>
      simp only [cnt]
      rw [ih, Nat.mod_add_mod]

/-- Splitting off the first of `m + 1` consecutive assignments. -/
lemma cnt_succ_front (c n w m : Nat) :
    cnt c n w (m + 1) = (if c % n = w then 1 else 0) + cnt (c + 1) n w m := by
  have h := cnt_add c n w 1 m
  have h1 : 1 + m = m + 1 := by omega
  rw [h1] at h
  rw [h]
  congr 1
  simp [cnt]

/-- A full round of `n` assignments hits the same workers from any start. -/
lemma cnt_shift (c n w : Nat) : cnt (c + 1) n w n = cnt c n w n := by
  have h1 : cnt c n w (n + 1) =
      cnt c n w n + (if (c + n) % n = w then 1 else 0) := by
    simp only [cnt]
  have h2 := cnt_succ_front c n w n
  have h4 : (c + n) % n = c % n := Nat.add_mod_right c n
  rw [h4] at h1
  rw [h2] at h1
  generalize (if c % n = w then 1 else 0) = k at h1
  omega

lemma cnt_full_eq_zero_base (n w : Nat) : ∀ c, cnt c n w n = cnt 0 n w n := by
  intro c
  induction c with
  | zero => rfl
  | succ c ih => rw [cnt_shift c n w]; exact ih

lemma cnt_zero_prefix (n w : Nat) :
    ∀ m, m ≤ n → cnt 0 n w m = if w < m then 1 else 0 := by
  intro m
  induction m with
  | zero => intro _; simp [cnt]
  | succ m ih =>
      intro hm
      have hmn : m < n := by omega
      simp only [cnt]
      rw [ih (by omega), Nat.zero_add, Nat.mod_eq_of_lt hmn]
      split_ifs <;> omega

/-- Each full round of `n` consecutive assignments gives worker `w < n`
exactly one connection. -/
lemma cnt_full (c n w : Nat) (hw : w < n) : cnt c n w n = 1 := by
  rw [cnt_full_eq_zero_base n w c, cnt_zero_prefix n w n le_rfl]
  simp [hw]

/-- Any window of at most `n` consecutive assignments gives worker `w < n`
at most one connection. -/
lemma cnt_window_le_one (c n w s : Nat) (hw : w < n) (hs : s ≤ n) :
    cnt c n w s ≤ 1 := by
  have h := cnt_add c n w s (n - s)
  have hsum : s + (n - s) = n := by omega
  rw [hsum] at h
  have hfull := cnt_full c n w hw
  omega

lemma cnt_blocks (n w : Nat) (hw : w < n) :
    ∀ (q c s : Nat), cnt c n w (n * q + s) = q + cnt (c + n * q) n w s := by
  intro q
  induction q with
  | zero => intro c s; simp
  | succ q ih =>
      intro c s
      have h1 : n * (q + 1) + s = n + (n * q + s) := by ring
      rw [h1, cnt_add c n w n (n * q + s), cnt_full c n w hw, ih (c + n) s]
      have h3 : c + n + n * q = c + n * (q + 1) := by ring
      rw [h3]
      omega

/-- `m` consecutive assignments give worker `w < n` either `⌊m / n⌋`
connections, or — only when `n` does not divide `m` — `⌈m / n⌉ = ⌊m / n⌋ + 1`
connections. -/
lemma cnt_floor_or_ceil (c n w m : Nat) (hw : w < n) :
    cnt c n w m = m / n ∨ (m % n ≠ 0 ∧ cnt c n w m = m / n + 1) := by
  have hn : 0 < n := lt_of_le_of_lt (Nat.zero_le w) hw
  have hdm : n * (m / n) + m % n = m := Nat.div_add_mod m n
  have h1 := cnt_blocks n w hw (m / n) c (m % n)
  rw [hdm] at h1
  have h2 : cnt (c + n * (m / n)) n w (m % n) ≤ 1 :=
    cnt_window_le_one _ n w _ hw (le_of_lt (Nat.mod_lt m hn))
  by_cases h0 : m % n = 0
  · left
    rw [h0] at h1
    simp only [cnt] at h1
    omega
  · have h3 : cnt (c + n * (m / n)) n w (m % n) = 0 ∨
        cnt (c + n * (m / n)) n w (m % n) = 1 := by omega
    rcases h3 with h3 | h3
    · left; omega
    · right; exact ⟨h0, by omega⟩

/-- Over a run of successfully registered connections, the number assigned to
worker `w` grows by `cnt` of the starting cursor and the run length. -/
lemma acceptor_run_good_count (numWorkers w : Nat) (hN : 0 < numWorkers) :
    ∀ (evs : List AcceptEvent) (s : AcceptorState), s.looping = true →
      s.cursor < numWorkers →
      (∀ e ∈ evs, ∃ cid, e = AcceptEvent.conn cid true true) →
      (assignedWorkers (acceptor_run numWorkers s evs)).count w =
        (assignedWorkers s).count w + cnt s.cursor numWorkers w evs.length := by
  intro evs
  induction evs with
  | nil => intro s _ _ _; simp [acceptor_run, cnt]
  | cons e evs ih =>
      intro s hloop hc hgood
      obtain ⟨cid, rfl⟩ := hgood e (List.mem_cons_self e evs)
      have hstep : acceptor_step numWorkers s (AcceptEvent.conn cid true true) =
          { s with assigned := s.assigned ++ [(cid, s.cursor)]
                   cursor := (s.cursor + 1) % numWorkers } := by
        simp [acceptor_step, hloop]
      have hrun : acceptor_run numWorkers s (AcceptEvent.conn cid true true :: evs)
          = acceptor_run numWorkers
              (acceptor_step numWorkers s (AcceptEvent.conn cid true true)) evs :=
        rfl
      rw [hrun, hstep,
        ih { s with assigned := s.assigned ++ [(cid, s.cursor)]
                    cursor := (s.cursor + 1) % numWorkers }
          (by simp [hloop]) (Nat.mod_lt _ hN)
          (fun e he => hgood e (List.mem_cons_of_mem _ he))]
      simp only [assignedWorkers, List.map_append, List.count_append,
        List.length_cons]
      rw [cnt_mod_left (s.cursor + 1) numWorkers w evs.length,
        cnt_succ_front s.cursor numWorkers w evs.length,
        Nat.mod_eq_of_lt hc]
      simp only [List.map_cons, List.map_nil, List.count_cons, List.count_nil,
        beq_iff_eq]
      split_ifs <;> omega

/-- C3: for any run of `M` consecutive accepted connections in which every
connection is successfully registered (no worker failures), starting from any
in-range cursor, each worker `w` is assigned either `⌊M / N⌋` of them, or —
only possible when `N ∤ M`, in which case `⌈M / N⌉ = ⌊M / N⌋ + 1` — exactly
`⌈M / N⌉` of them. -/
theorem c3_round_robin_fairness (numWorkers w : Nat) (s : AcceptorState)
    (evs : List AcceptEvent) (hw : w < numWorkers)
    (hloop : s.looping = true) (hc : s.cursor < numWorkers)
    (hgood : ∀ e ∈ evs, ∃ cid, e = AcceptEvent.conn cid true true) :
    (assignedWorkers (acceptor_run numWorkers s evs)).count w =
      (assignedWorkers s).count w + evs.length / numWorkers ∨
    (evs.length % numWorkers ≠ 0 ∧
      (assignedWorkers (acceptor_run numWorkers s evs)).count w =
        (assignedWorkers s).count w + evs.length / numWorkers + 1) := by
  have hN : 0 < numWorkers := lt_of_le_of_lt (Nat.zero_le w) hw
  have hlink := acceptor_run_good_count numWorkers w hN evs s hloop hc hgood
  rcases cnt_floor_or_ceil s.cursor numWorkers w evs.length hw with h | ⟨h0, h⟩
  · left; omega
  · right; exact ⟨h0, by omega⟩

/-- Witness for C3: three connections over two workers from the initial
state. -/
theorem c3_round_robin_fairness_witness :
    (assignedWorkers (acceptor_run 2 acceptor_init
        [AcceptEvent.conn 0 true true, AcceptEvent.conn 1 true true,
         AcceptEvent.conn 2 true true])).count 0 =
      (assignedWorkers acceptor_init).count 0 +
        ([AcceptEvent.conn 0 true true, AcceptEvent.conn 1 true true,
          AcceptEvent.conn 2 true true] : List AcceptEvent).length / 2 ∨
    (([AcceptEvent.conn 0 true true, AcceptEvent.conn 1 true true,
       AcceptEvent.conn 2 true true] : List AcceptEvent).length % 2 ≠ 0 ∧
      (assignedWorkers (acceptor_run 2 acceptor_init
          [AcceptEvent.conn 0 true true, AcceptEvent.conn 1 true true,
           AcceptEvent.conn 2 true true])).count 0 =
        (assignedWorkers acceptor_init).count 0 +
          ([AcceptEvent.conn 0 true true, AcceptEvent.conn 1 true true,
            AcceptEvent.conn 2 true true] : List AcceptEvent).length / 2 + 1) :=
  c3_round_robin_fairness 2 0 acceptor_init
    [AcceptEvent.conn 0 true true, AcceptEvent.conn 1 true true,
     AcceptEvent.conn 2 true true]
    (by decide) (by decide) (by decide)
    (by intro e he; fin_cases he <;> exact ⟨_, rfl⟩)

end CHttp
